import Mathlib

/-!
Shallow embedding of the gesture-to-music core of `src/camera.js`.

The classifier part embeds the body of the per-pose callback inside
`poseDetectionFrame` (camera.js lines 502-623): the helper closures
`isAllConfidentParts`, `getScore` / `getX` / `getY`, `headX` / `headY`,
and the four gesture condition chains.  The state/playback part embeds
`updateState` (lines 52-84) together with the `songLookup` catalog
(lines 33-50) and `getSelectedDevice` (lines 713-716).

Modelling conventions:
  * JavaScript numbers are modelled as rationals (`ℚ`); the one place the
    source can produce `NaN` (the head average `0/0` when no head part
    clears the confidence threshold) is modelled by the explicit `JsNum.nan`
    value, with comparisons against `nan` false on both sides, exactly as
    in JavaScript.
  * A thrown `TypeError` (reading `.score` / `.position` off the
    `undefined` returned by `keypoints.find` when a part is absent) is
    modelled by `Option`: `none` is the exception outcome, `some` the
    normal outcome.  `Option.bind` chains mirror the order of the
    JavaScript calls; since every lookup is deterministic and all
    exceptions are identified, this ordering is observationally faithful.
  * External effects (console logs, the Spotify play / seek requests, the
    authorization redirect) are recorded in an `Effect` trace, and the
    outcome of the external service calls is an input (`ServiceBehavior`).
-/

structure Position where
  x : ℚ
  y : ℚ
deriving DecidableEq

structure Keypoint where
  part : String
  position : Position
  score : ℚ
deriving DecidableEq

/-- The `keypoints.find(kp => kp.part === partName)` lookup. -/
def findKeypoint (kps : List Keypoint) (partName : String) : Option Keypoint :=
  kps.find? (fun kp => kp.part == partName)

/-- `getScore` (camera.js 518-521); `none` models the TypeError thrown when
the part is absent and `keypoint.score` reads off `undefined`. -/
def getScore (kps : List Keypoint) (partName : String) : Option ℚ :=
  (findKeypoint kps partName).map (fun keypoint => keypoint.score)

/-- `getX` (camera.js 523-526). -/
def getX (kps : List Keypoint) (partName : String) : Option ℚ :=
  (findKeypoint kps partName).map (fun keypoint => keypoint.position.x)

/-- `getY` (camera.js 528-531). -/
def getY (kps : List Keypoint) (partName : String) : Option ℚ :=
  (findKeypoint kps partName).map (fun keypoint => keypoint.position.y)

/-- The `partNames.map(getScore-like lookup)` step of `isAllConfidentParts`
(camera.js 509-512): collects the scores, propagating the exception raised
at any absent part. -/
def scoresOf (kps : List Keypoint) : List String → Option (List ℚ)
  | [] => some []
  | p :: ps =>
    match getScore kps p with
    | none => none
    | some s =>
      match scoresOf kps ps with
      | none => none
      | some rest => some (s :: rest)

/-- `isAllConfidentParts` (camera.js 508-516): every collected score must be
strictly above `minPartConfidence`. -/
def isAllConfidentParts (kps : List Keypoint) (minPartConfidence : ℚ)
    (partNames : List String) : Option Bool :=
  (scoresOf kps partNames).map
    (fun scores => scores.all (fun confidence => decide (minPartConfidence < confidence)))

def headParts : List String := ["nose", "leftEye", "rightEye", "leftEar", "rightEar"]

/-- The `headParts.filter(partName => getScore(partName) > minPartConfidence)`
step of `headX` / `headY` (camera.js 536-538, 548-550). -/
def confidentHeadParts (kps : List Keypoint) (minPartConfidence : ℚ) :
    List String → Option (List String)
  | [] => some []
  | p :: ps =>
    match getScore kps p with
    | none => none
    | some s =>
      match confidentHeadParts kps minPartConfidence ps with
      | none => none
      | some rest => some (if minPartConfidence < s then p :: rest else rest)

/-- The `.map(getX)` step of `headX`. -/
def xsOf (kps : List Keypoint) : List String → Option (List ℚ)
  | [] => some []
  | p :: ps =>
    match getX kps p with
    | none => none
    | some v =>
      match xsOf kps ps with
      | none => none
      | some rest => some (v :: rest)

/-- The `.map(getY)` step of `headY`. -/
def ysOf (kps : List Keypoint) : List String → Option (List ℚ)
  | [] => some []
  | p :: ps =>
    match getY kps p with
    | none => none
    | some v =>
      match ysOf kps ps with
      | none => none
      | some rest => some (v :: rest)

/-- A JavaScript number that may be `NaN` (the source's `0 / 0` average). -/
inductive JsNum where
  | nan : JsNum
  | val : ℚ → JsNum
deriving DecidableEq

/-- JavaScript `a < b` where `b` may be `NaN` (always false against `NaN`). -/
def jsLt (a : ℚ) : JsNum → Bool
  | JsNum.nan => false
  | JsNum.val b => decide (a < b)

/-- JavaScript `a > b` where `b` may be `NaN` (always false against `NaN`). -/
def jsGt (a : ℚ) : JsNum → Bool
  | JsNum.nan => false
  | JsNum.val b => decide (b < a)

/-- `headX` (camera.js 535-545): average x of the confidently-seen head
parts; `vals.reduce((a,b) => a+b, 0) / vals.length` is `NaN` when the
filtered list is empty. -/
def headX (kps : List Keypoint) (minPartConfidence : ℚ) : Option JsNum :=
  match confidentHeadParts kps minPartConfidence headParts with
  | none => none
  | some names =>
    match xsOf kps names with
    | none => none
    | some vals =>
      some (if vals.length = 0 then JsNum.nan else JsNum.val (vals.sum / (vals.length : ℚ)))

/-- `headY` (camera.js 547-557); defined in the source but used by no
gesture condition. -/
def headY (kps : List Keypoint) (minPartConfidence : ℚ) : Option JsNum :=
  match confidentHeadParts kps minPartConfidence headParts with
  | none => none
  | some names =>
    match ysOf kps names with
    | none => none
    | some vals =>
      some (if vals.length = 0 then JsNum.nan else JsNum.val (vals.sum / (vals.length : ℚ)))

def armParts : List String :=
  ["leftWrist", "leftElbow", "leftShoulder", "rightWrist", "rightElbow", "rightShoulder"]

def thrillerParts : List String := ["leftWrist", "leftElbow", "rightWrist", "rightElbow"]

/-- Vertical chain of the YMCA condition (camera.js 562-563): both wrists
above elbows above shoulders (smaller y is higher on screen).  The source
short-circuits between comparisons, but every part read here is already
known present once `isAllConfidentParts` has returned a value, so the
lookup order cannot change the outcome. -/
def vertYMCA (kps : List Keypoint) : Option Bool :=
  (getY kps "leftWrist").bind fun lW =>
  (getY kps "leftElbow").bind fun lE =>
  (getY kps "leftShoulder").bind fun lS =>
  (getY kps "rightWrist").bind fun rW =>
  (getY kps "rightElbow").bind fun rE =>
  (getY kps "rightShoulder").bind fun rS =>
  some (decide (lW < lE) && decide (lE < lS) && decide (rW < rE) && decide (rE < rS))

/-- Vertical disjunction of the Baby Shark condition (camera.js 575-581):
one arm fully up, the other fully down.  The Disco condition's vertical
test (camera.js 592-598) is textually identical to this one in the source;
the two branches differ only in their horizontal test. -/
def vertShark (kps : List Keypoint) : Option Bool :=
  (getY kps "leftWrist").bind fun lW =>
  (getY kps "leftElbow").bind fun lE =>
  (getY kps "leftShoulder").bind fun lS =>
  (getY kps "rightWrist").bind fun rW =>
  (getY kps "rightElbow").bind fun rE =>
  (getY kps "rightShoulder").bind fun rS =>
  some ((decide (lW < lE) && decide (lE < lS) && decide (rE < rW) && decide (rS < rE)) ||
        (decide (lE < lW) && decide (lS < lE) && decide (rW < rE) && decide (rE < rS)))

/-- Vertical chain of the Thriller condition (camera.js 609-612): wrists
above elbows; shoulders are not consulted. -/
def vertThriller (kps : List Keypoint) : Option Bool :=
  (getY kps "leftWrist").bind fun lW =>
  (getY kps "leftElbow").bind fun lE =>
  (getY kps "rightWrist").bind fun rW =>
  (getY kps "rightElbow").bind fun rE =>
  some (decide (lW < lE) && decide (rW < rE))

/-- Horizontal test with the wrists on opposite sides of the head average
(YMCA, camera.js 565-568; Disco, 599-602).  The source recomputes `headX()`
at each comparison; it is deterministic within a frame, so one shared value
is observationally identical. -/
def horizOpposite (kps : List Keypoint) (minPartConfidence : ℚ) : Option Bool :=
  (headX kps minPartConfidence).bind fun hx =>
  (getX kps "leftWrist").bind fun lWx =>
  (getX kps "rightWrist").bind fun rWx =>
  some ((jsLt lWx hx && jsGt rWx hx) || (jsGt lWx hx && jsLt rWx hx))

/-- Horizontal test with both wrists on the same side of the head average
(Baby Shark, camera.js 582-585; Thriller, 614-617). -/
def horizSameSide (kps : List Keypoint) (minPartConfidence : ℚ) : Option Bool :=
  (headX kps minPartConfidence).bind fun hx =>
  (getX kps "leftWrist").bind fun lWx =>
  (getX kps "rightWrist").bind fun rWx =>
  some ((jsLt lWx hx && jsLt rWx hx) || (jsGt lWx hx && jsGt rWx hx))

/-- One `isAllConfidentParts(...) && (vertical) && (horizontal)` condition,
with the JavaScript `&&` short-circuit: the vertical test only runs when
the confidence gate passed, the horizontal test (which evaluates `headX()`
and can throw on an absent head part) only runs when the vertical test
passed. -/
def branchOf (conf vert horiz : Option Bool) : Option Bool :=
  match conf with
  | none => none
  | some false => some false
  | some true =>
    match vert with
    | none => none
    | some false => some false
    | some true => horiz

/-- The gesture-classification part of the per-pose callback
(camera.js 504-620): the `score >= minPoseConfidence` gate followed by the
four `if / else if` condition chains in source order.  The outer `Option`
is the exception outcome (a TypeError escaping the callback); the inner
`Option String` is the matched gesture, `none` when no branch fired. -/
def classifyPose (minPoseConfidence minPartConfidence score : ℚ)
    (kps : List Keypoint) : Option (Option String) :=
  if minPoseConfidence ≤ score then
    match branchOf (isAllConfidentParts kps minPartConfidence armParts)
        (vertYMCA kps) (horizOpposite kps minPartConfidence) with
    | none => none
    | some true => some (some "YMCA")
    | some false =>
      match branchOf (isAllConfidentParts kps minPartConfidence armParts)
          (vertShark kps) (horizSameSide kps minPartConfidence) with
      | none => none
      | some true => some (some "Baby Shark")
      | some false =>
        match branchOf (isAllConfidentParts kps minPartConfidence armParts)
            (vertShark kps) (horizOpposite kps minPartConfidence) with
        | none => none
        | some true => some (some "Disco")
        | some false =>
          match branchOf (isAllConfidentParts kps minPartConfidence thrillerParts)
              (vertThriller kps) (horizSameSide kps minPartConfidence) with
          | none => none
          | some true => some (some "Thriller")
          | some false => some none
  else some none

/-- One entry of the `songLookup` catalog (camera.js 33-50): track uri and
start offset in milliseconds. -/
structure Song where
  uri : String
  position : Int
deriving DecidableEq

/-- The `songLookup` catalog (camera.js 33-50); `90.5 * 1000` is exactly
`90500`. -/
def songLookup : String → Option Song
  | "YMCA" => some { uri := "spotify:track:7Cp69rNBwU0gaFT8zxExlE", position := 58 * 1000 }
  | "Baby Shark" => some { uri := "spotify:track:5ygDXis42ncn6kYG14lEVG", position := 4 * 1000 }
  | "Disco" => some { uri := "spotify:track:7qK3JFriCqLorQivsJYG2X", position := 0 }
  | "Thriller" => some { uri := "spotify:track:7azo4rpSUh8nXgtonC6Pkq", position := 90500 }
  | _ => none

/-- Result of one external Spotify call: success, or a rejection carrying
the HTTP status (`ex.status`). -/
inductive CallResult where
  | ok : CallResult
  | err : Int → CallResult
deriving DecidableEq

/-- How the external playback service behaves during one `updateState`
call: the outcome of the `spotifyApi.play` request and, if one is issued,
of the follow-up `spotifyApi.seek` request. -/
structure ServiceBehavior where
  playResult : CallResult
  seekResult : CallResult
deriving DecidableEq

/-- The externally observable actions of `updateState`, in order:
`console.log('Updating State', ...)` (line 57), the play request with its
`device_id` and uri list (64-67), the seek request with its position and
the device identifier it carries in its options — the source calls
`spotifyApi.seek(song.position)` with no options (line 70), so the device
field records what was actually passed — the `authorize()` redirect
(line 75), and the `console.error` for a state missing from the catalog
(line 80). -/
inductive Effect where
  | logUpdate : String → Effect
  | play : String → List String → Effect
  | seek : Int → Option String → Effect
  | authorize : Effect
  | logSongNotFound : String → Effect
deriving DecidableEq

/-- `updateState` (camera.js 52-84), with the module-level `currentState`
passed and returned explicitly and the selected output device
(`getSelectedDevice()`, lines 713-716) supplied as the `device` argument.
Returns the new `currentState` and the trace of effects.  The `try` block
issues the play request; on success it issues the seek request only when
`song.position > 0`; the `catch` calls `authorize()` exactly when the
thrown status is 401 and otherwise does nothing; line 83 then sets
`currentState = newState` unconditionally. -/
def updateState (svc : ServiceBehavior) (device : String)
    (currentState newState : String) : String × List Effect :=
  if currentState = newState then
    (currentState, [])
  else
    let effects :=
      Effect.logUpdate newState ::
        (match songLookup newState with
         | some song =>
           Effect.play device [song.uri] ::
             (match svc.playResult with
              | CallResult.ok =>
                if song.position > 0 then
                  Effect.seek song.position none ::
                    (match svc.seekResult with
                     | CallResult.ok => []
                     | CallResult.err status =>
                       if status = 401 then [Effect.authorize] else [])
                else []
              | CallResult.err status =>
                if status = 401 then [Effect.authorize] else [])
         | none => [Effect.logSongNotFound newState])
    (newState, effects)

/-- Feeding a sequence of classified names through `updateState`,
threading `currentState` and concatenating the effect traces. -/
def runStates (svc : ServiceBehavior) (device : String) :
    String → List String → String × List Effect
  | st, [] => (st, [])
  | st, n :: ns =>
    let r := updateState svc device st n
    let rest := runStates svc device r.1 ns
    (rest.1, r.2 ++ rest.2)

/-- One frame's input to the per-pose callback: the pose-level score and
the keypoint list. -/
structure Frame where
  score : ℚ
  keypoints : List Keypoint
deriving DecidableEq

/-- One pose through the music part of `poseDetectionFrame`
(camera.js 504-623): classify, and call `updateState` only when one of the
four gesture conditions fired — a frame classified as no gesture leaves
the held state untouched.  `none` is the exception outcome of the
classifier. -/
def frameStep (svc : ServiceBehavior) (device : String)
    (minPoseConfidence minPartConfidence : ℚ) (st : String) (f : Frame) :
    Option (String × List Effect) :=
  match classifyPose minPoseConfidence minPartConfidence f.score f.keypoints with
  | none => none
  | some none => some (st, [])
  | some (some g) => some (updateState svc device st g)

/-- A sequence of frames through `frameStep`, threading the held state. -/
def runFrames (svc : ServiceBehavior) (device : String)
    (minPoseConfidence minPartConfidence : ℚ) :
    String → List Frame → Option (String × List Effect)
  | st, [] => some (st, [])
  | st, f :: fs =>
    match frameStep svc device minPoseConfidence minPartConfidence st f with
    | none => none
    | some r =>
      match runFrames svc device minPoseConfidence minPartConfidence r.1 fs with
      | none => none
      | some rest => some (rest.1, r.2 ++ rest.2)

/-- Recognizes a play request in an effect trace. -/
def isPlay : Effect → Bool
  | Effect.play _ _ => true
  | _ => false

/-- Recognizes the catalog-miss `console.error` report in a trace. -/
def isSongNotFound : Effect → Bool
  | Effect.logSongNotFound _ => true
  | _ => false

/-- Recognizes the `authorize()` renewal signal in a trace. -/
def isAuthorize : Effect → Bool
  | Effect.authorize => true
  | _ => false

/-- Recognizes a seek request in a trace. -/
def isSeek : Effect → Bool
  | Effect.seek _ _ => true
  | _ => false

/-- Every play request in the trace carries the given device identifier. -/
def playCarries (device : String) : Effect → Bool
  | Effect.play d _ => d == device
  | _ => true

/-- Every seek request in the trace carries the given device identifier
(the reading of claim C4 for the follow-up seek). -/
def seekCarries (device : String) : Effect → Bool
  | Effect.seek _ d => d == some device
  | _ => true

/-- Every seek request in the trace carries no device identifier at all. -/
def seekCarriesNoDevice : Effect → Bool
  | Effect.seek _ d => d == none
  | _ => true

/-- Convenience constructor for a detected keypoint. -/
def mkKp (part : String) (x y score : ℚ) : Keypoint :=
  { part := part, position := { x := x, y := y }, score := score }

/-- An external service that accepts both requests. -/
def okSvc : ServiceBehavior := { playResult := CallResult.ok, seekResult := CallResult.ok }

/-- A fully-detected YMCA pose: all eleven consulted parts at confidence
9/10, wrists above elbows above shoulders, head parts averaging x = 300,
left wrist at x = 200 and right wrist at x = 400 (opposite sides). -/
def kpsYMCA : List Keypoint :=
  [mkKp "nose" 300 20 (9/10), mkKp "leftEye" 300 18 (9/10), mkKp "rightEye" 300 18 (9/10),
   mkKp "leftEar" 300 22 (9/10), mkKp "rightEar" 300 22 (9/10),
   mkKp "leftWrist" 200 50 (9/10), mkKp "leftElbow" 220 100 (9/10),
   mkKp "leftShoulder" 240 150 (9/10),
   mkKp "rightWrist" 400 50 (9/10), mkKp "rightElbow" 380 100 (9/10),
   mkKp "rightShoulder" 360 150 (9/10)]

/-- An idle pose, same detection quality as `kpsYMCA` but with both arms
hanging down (wrists below elbows below shoulders): no gesture condition
fires, so the frame classifies as no gesture. -/
def kpsIdle : List Keypoint :=
  [mkKp "nose" 300 20 (9/10), mkKp "leftEye" 300 18 (9/10), mkKp "rightEye" 300 18 (9/10),
   mkKp "leftEar" 300 22 (9/10), mkKp "rightEar" 300 22 (9/10),
   mkKp "leftWrist" 200 300 (9/10), mkKp "leftElbow" 220 250 (9/10),
   mkKp "leftShoulder" 240 200 (9/10),
   mkKp "rightWrist" 400 300 (9/10), mkKp "rightElbow" 380 250 (9/10),
   mkKp "rightShoulder" 360 200 (9/10)]

/-- An exact-boundary pose: the left elbow's y equals the left shoulder's y
(both 100), wrists above elbows, both wrists left of the head average
(x = 300).  The YMCA, Baby Shark and Disco chains all fail on the tied
elbow/shoulder comparison, but the Thriller condition never compares an
elbow with a shoulder and fires. -/
def kpsTie : List Keypoint :=
  [mkKp "nose" 300 20 (9/10), mkKp "leftEye" 300 18 (9/10), mkKp "rightEye" 300 18 (9/10),
   mkKp "leftEar" 300 22 (9/10), mkKp "rightEar" 300 22 (9/10),
   mkKp "leftWrist" 100 50 (9/10), mkKp "leftElbow" 110 100 (9/10),
   mkKp "leftShoulder" 120 100 (9/10),
   mkKp "rightWrist" 150 50 (9/10), mkKp "rightElbow" 160 100 (9/10),
   mkKp "rightShoulder" 170 120 (9/10)]

/-- The `kpsYMCA` frame with pose-level score 9/10. -/
def frameYMCA : Frame := { score := 9/10, keypoints := kpsYMCA }

/-- The `kpsIdle` frame with pose-level score 9/10. -/
def frameIdle : Frame := { score := 9/10, keypoints := kpsIdle }

set_option maxRecDepth 16384

/-- The `kpsYMCA` snapshot with the left wrist removed entirely: every
remaining part is present and confident. -/
def kpsNoWrist : List Keypoint := kpsYMCA.filter (fun kp => !(kp.part == "leftWrist"))

/- Concrete evaluations of the classifier pieces, used to assemble the
concrete classification results without one monolithic reduction. -/

theorem confArm_kpsYMCA : isAllConfidentParts kpsYMCA (1/2) armParts = some true := by
  with_unfolding_all decide

theorem vertYMCA_kpsYMCA : vertYMCA kpsYMCA = some true := by
  with_unfolding_all decide

theorem horizOpp_kpsYMCA : horizOpposite kpsYMCA (1/2) = some true := by
  with_unfolding_all decide

/-- The fully-detected YMCA pose classifies as "YMCA". -/
theorem classify_kpsYMCA : classifyPose (1/10) (1/2) (9/10) kpsYMCA = some (some "YMCA") := by
  rw [classifyPose, if_pos (by norm_num), confArm_kpsYMCA, vertYMCA_kpsYMCA, horizOpp_kpsYMCA]
  rfl

theorem confArm_kpsIdle : isAllConfidentParts kpsIdle (1/2) armParts = some true := by
  with_unfolding_all decide

theorem confThriller_kpsIdle : isAllConfidentParts kpsIdle (1/2) thrillerParts = some true := by
  with_unfolding_all decide

theorem vertYMCA_kpsIdle : vertYMCA kpsIdle = some false := by
  with_unfolding_all decide

theorem vertShark_kpsIdle : vertShark kpsIdle = some false := by
  with_unfolding_all decide

theorem vertThriller_kpsIdle : vertThriller kpsIdle = some false := by
  with_unfolding_all decide

/-- The arms-down pose classifies as no gesture. -/
theorem classify_kpsIdle : classifyPose (1/10) (1/2) (9/10) kpsIdle = some none := by
  rw [classifyPose, if_pos (by norm_num), confArm_kpsIdle, confThriller_kpsIdle,
    vertYMCA_kpsIdle, vertShark_kpsIdle, vertThriller_kpsIdle]
  rfl

theorem confArm_kpsTie : isAllConfidentParts kpsTie (1/2) armParts = some true := by
  with_unfolding_all decide

theorem confThriller_kpsTie : isAllConfidentParts kpsTie (1/2) thrillerParts = some true := by
  with_unfolding_all decide

theorem vertYMCA_kpsTie : vertYMCA kpsTie = some false := by
  with_unfolding_all decide

theorem vertShark_kpsTie : vertShark kpsTie = some false := by
  with_unfolding_all decide

theorem vertThriller_kpsTie : vertThriller kpsTie = some true := by
  with_unfolding_all decide

theorem horizSame_kpsTie : horizSameSide kpsTie (1/2) = some true := by
  with_unfolding_all decide

/-- The tied elbow/shoulder pose classifies as "Thriller". -/
theorem classify_kpsTie : classifyPose (1/10) (1/2) (9/10) kpsTie = some (some "Thriller") := by
  rw [classifyPose, if_pos (by norm_num), confArm_kpsTie, confThriller_kpsTie,
    vertYMCA_kpsTie, vertShark_kpsTie, vertThriller_kpsTie, horizSame_kpsTie]
  rfl

theorem confArm_kpsNoWrist : isAllConfidentParts kpsNoWrist (1/2) armParts = none := by
  with_unfolding_all decide

/-- With the left wrist absent, the classifier raises (the outer `none`). -/
theorem classify_kpsNoWrist : classifyPose (1/10) (1/2) (9/10) kpsNoWrist = none := by
  rw [classifyPose, if_pos (by norm_num), confArm_kpsNoWrist]
  rfl

/- Concrete evaluations of `updateState`. -/

theorem upd_ymca : updateState okSvc "device1" "" "YMCA" =
    ("YMCA",
      [Effect.logUpdate "YMCA", Effect.play "device1" ["spotify:track:7Cp69rNBwU0gaFT8zxExlE"],
       Effect.seek 58000 none]) := by
  simp [updateState, songLookup, okSvc]

theorem upd_ymca_repeat : updateState okSvc "device1" "YMCA" "YMCA" = ("YMCA", []) := by
  simp [updateState]

theorem upd_thriller : updateState okSvc "device1" "" "Thriller" =
    ("Thriller",
      [Effect.logUpdate "Thriller", Effect.play "device1" ["spotify:track:7azo4rpSUh8nXgtonC6Pkq"],
       Effect.seek 90500 none]) := by
  simp [updateState, songLookup, okSvc]

/-- Claim C1 counterexample: starting from the empty initial state, a
YMCA frame confirms "YMCA"; the following frame classifies as no gesture
(`some none`), yet the held state stays "YMCA" rather than being replaced
by "none"; and a third frame classified "YMCA" again is therefore not a
new transition — the whole run issues exactly one play request, where the
claim predicts a fresh transition and a second playback action. -/
theorem c1_counterexample :
    classifyPose (1/10) (1/2) frameIdle.score frameIdle.keypoints = some none ∧
    runFrames okSvc "device1" (1/10) (1/2) "" [frameYMCA, frameIdle] =
      some ("YMCA",
        [Effect.logUpdate "YMCA", Effect.play "device1" ["spotify:track:7Cp69rNBwU0gaFT8zxExlE"],
         Effect.seek 58000 none]) ∧
    runFrames okSvc "device1" (1/10) (1/2) "" [frameYMCA, frameIdle, frameYMCA] =
      some ("YMCA",
        [Effect.logUpdate "YMCA", Effect.play "device1" ["spotify:track:7Cp69rNBwU0gaFT8zxExlE"],
         Effect.seek 58000 none]) := by
  refine ⟨classify_kpsIdle, ?_, ?_⟩ <;>
  · simp only [runFrames, frameStep, frameYMCA, frameIdle, classify_kpsYMCA, classify_kpsIdle,
      upd_ymca, upd_ymca_repeat]
    rfl

/-- Claim C2 counterexample: a snapshot in which the left wrist is absent
but every other part is present and confident.  The classifier does not
skip the definition and return "none": the lookup `keypoints.find(...)`
yields `undefined` and reading `.score` off it throws, modelled by the
outer `none` — the exception outcome, not the normal `some none`. -/
theorem c2_counterexample :
    classifyPose (1/10) (1/2) (9/10) kpsNoWrist = none ∧
    classifyPose (1/10) (1/2) (9/10) kpsNoWrist ≠ some none := by
  refine ⟨classify_kpsNoWrist, ?_⟩
  rw [classify_kpsNoWrist]
  simp

/-- Claim C3 counterexample: the play request fails with status 500.  The
resulting trace is exactly the pre-call log and the play request — the
`catch` block does nothing for a non-401 status, so no error report of any
kind is emitted, where the claim says the error is logged.  (The held
state is still updated to "YMCA", as the claim also says.) -/
theorem c3_counterexample :
    updateState { playResult := CallResult.err 500, seekResult := CallResult.ok }
        "device1" "" "YMCA" =
      ("YMCA",
        [Effect.logUpdate "YMCA",
         Effect.play "device1" ["spotify:track:7Cp69rNBwU0gaFT8zxExlE"]]) := by
  simp [updateState, songLookup]

/-- Claim C4 counterexample: in a successful "YMCA" playback the follow-up
seek request carries no device identifier — `spotifyApi.seek(song.position)`
is called with the position only — so not every seek request is keyed by
the selected device. -/
theorem c4_counterexample :
    (updateState okSvc "device1" "" "YMCA").2.all (seekCarries "device1") = false := by
  rw [upd_ymca]
  rfl

/-- Claim C10 counterexample: an exact-boundary pose in which the left
elbow's y equals the left shoulder's y still matches a gesture: the
Thriller condition never compares an elbow with a shoulder, so the pose
classifies as "Thriller" and triggers a state update and playback. -/
theorem c10_counterexample :
    getY kpsTie "leftElbow" = getY kpsTie "leftShoulder" ∧
    classifyPose (1/10) (1/2) (9/10) kpsTie = some (some "Thriller") ∧
    frameStep okSvc "device1" (1/10) (1/2) "" { score := 9/10, keypoints := kpsTie } =
      some ("Thriller",
        [Effect.logUpdate "Thriller",
         Effect.play "device1" ["spotify:track:7azo4rpSUh8nXgtonC6Pkq"],
         Effect.seek 90500 none]) := by
  refine ⟨by with_unfolding_all decide, classify_kpsTie, ?_⟩
  simp only [frameStep, classify_kpsTie, upd_thriller]

/-- Line 83 of the source runs unconditionally once the guard has been
passed, and the guard case already holds the new name: the returned state
always equals the argument. -/
theorem updateState_fst (svc : ServiceBehavior) (device prev name : String) :
    (updateState svc device prev name).1 = name := by
  rw [updateState]
  split_ifs with h
  · exact h
  · rfl

/-- A repeated name is a no-op. -/
theorem updateState_self (svc : ServiceBehavior) (device name : String) :
    updateState svc device name name = (name, []) := by
  rw [updateState, if_pos rfl]

/-- Any number of consecutive repeats of the already-held name leaves the
state unchanged and emits nothing. -/
theorem runStates_replicate_self (svc : ServiceBehavior) (device name : String) :
    ∀ m : ℕ, runStates svc device name (List.replicate m name) = (name, []) := by
  intro m
  induction m with
  | zero => rfl
  | succ k ih =>
    rw [List.replicate_succ]
    simp only [runStates, updateState_self, ih]
    rfl

/-- The catalog entry the classifier's "YMCA" result maps to. -/
def ymcaSong : Song := { uri := "spotify:track:7Cp69rNBwU0gaFT8zxExlE", position := 58000 }

/-- Claim C7: feeding the same classified name N ≥ 2 consecutive times
through the state tracker produces the transition of the first frame only:
the whole run equals the single first `updateState` call (every repeat is
a no-op leaving the held state unchanged and issuing no external call),
and when the name is in the catalog that first call issues exactly one
play request. -/
theorem c7_debounce (svc : ServiceBehavior) (device prev name : String) (n : ℕ)
    (hne : prev ≠ name) :
    runStates svc device prev (List.replicate (n + 1) name) =
      (name, (updateState svc device prev name).2) ∧
    (∀ song, songLookup name = some song →
      List.countP isPlay (updateState svc device prev name).2 = 1) := by
  constructor
  · rw [List.replicate_succ]
    simp only [runStates, updateState_fst, runStates_replicate_self]
    simp
  · intro song hsong
    obtain ⟨pr, sr⟩ := svc
    rw [updateState, if_neg hne, hsong]
    rcases pr with _ | status
    · by_cases hp : song.position > 0
      · rcases sr with _ | s2
        · simp [hp, isPlay]
        · by_cases h4 : s2 = 401 <;> simp [hp, h4, isPlay]
      · simp [hp, isPlay]
    · by_cases h4 : status = 401 <;> simp [h4, isPlay]

/-- Claim C7 witness, at the concrete run `"" → "YMCA", "YMCA"`. -/
theorem c7_witness :
    ("" : String) ≠ "YMCA" ∧ songLookup "YMCA" = some ymcaSong ∧
    runStates okSvc "device1" "" (List.replicate 2 "YMCA") =
      ("YMCA", (updateState okSvc "device1" "" "YMCA").2) ∧
    List.countP isPlay (updateState okSvc "device1" "" "YMCA").2 = 1 :=
  ⟨by decide, rfl, (c7_debounce okSvc "device1" "" "YMCA" 1 (by decide)).1,
   (c7_debounce okSvc "device1" "" "YMCA" 1 (by decide)).2 ymcaSong rfl⟩

/-- Claim C8: when the play request is rejected with status 401, the trace
is exactly the pre-call log, the single play request, and one `authorize()`
renewal signal — no second play, no seek, no queuing; and when the play
request succeeds but the follow-up seek is rejected with 401, the trace is
exactly the log, one play, one seek, and one renewal signal — the seek is
not retried either. -/
theorem c8_auth_expiry (svc : ServiceBehavior) (device prev name : String) (song : Song)
    (hne : prev ≠ name) (hsong : songLookup name = some song) :
    (svc.playResult = CallResult.err 401 →
      updateState svc device prev name =
        (name, [Effect.logUpdate name, Effect.play device [song.uri], Effect.authorize])) ∧
    (svc.playResult = CallResult.ok → song.position > 0 →
        svc.seekResult = CallResult.err 401 →
      updateState svc device prev name =
        (name, [Effect.logUpdate name, Effect.play device [song.uri],
                Effect.seek song.position none, Effect.authorize])) := by
  obtain ⟨pr, sr⟩ := svc
  constructor
  · intro hp
    simp only at hp
    subst hp
    rw [updateState, if_neg hne, hsong]
    simp
  · intro hp hpos hs
    simp only at hp hs
    subst hp; subst hs
    rw [updateState, if_neg hne, hsong]
    simp [hpos]

/-- Claim C8 witness: the concrete 401 rejections of the "YMCA" play and
seek requests. -/
theorem c8_witness :
    ("" : String) ≠ "YMCA" ∧ songLookup "YMCA" = some ymcaSong ∧
    updateState { playResult := CallResult.err 401, seekResult := CallResult.ok }
        "device1" "" "YMCA" =
      ("YMCA", [Effect.logUpdate "YMCA",
                Effect.play "device1" ["spotify:track:7Cp69rNBwU0gaFT8zxExlE"],
                Effect.authorize]) ∧
    updateState { playResult := CallResult.ok, seekResult := CallResult.err 401 }
        "device1" "" "YMCA" =
      ("YMCA", [Effect.logUpdate "YMCA",
                Effect.play "device1" ["spotify:track:7Cp69rNBwU0gaFT8zxExlE"],
                Effect.seek 58000 none, Effect.authorize]) :=
  ⟨by decide, rfl,
   (c8_auth_expiry { playResult := CallResult.err 401, seekResult := CallResult.ok }
      "device1" "" "YMCA" ymcaSong (by decide) rfl).1 rfl,
   (c8_auth_expiry { playResult := CallResult.ok, seekResult := CallResult.err 401 }
      "device1" "" "YMCA" ymcaSong (by decide) rfl).2 rfl (by decide) rfl⟩

/-- Claim C3 (amended): when the play request fails with a status other
than 401, or the play succeeds and the follow-up seek fails with a status
other than 401, the action is dropped without any retry and without any
error report — the `catch` block does nothing for a non-401 status, so the
trace ends at the failed request — and the held state is still updated to
the new name. -/
theorem c3_amended (svc : ServiceBehavior) (device prev name : String) (song : Song)
    (status : Int) (hne : prev ≠ name) (hsong : songLookup name = some song)
    (h401 : status ≠ 401) :
    (svc.playResult = CallResult.err status →
      updateState svc device prev name =
        (name, [Effect.logUpdate name, Effect.play device [song.uri]])) ∧
    (svc.playResult = CallResult.ok → song.position > 0 →
        svc.seekResult = CallResult.err status →
      updateState svc device prev name =
        (name, [Effect.logUpdate name, Effect.play device [song.uri],
                Effect.seek song.position none])) := by
  obtain ⟨pr, sr⟩ := svc
  constructor
  · intro hp
    simp only at hp
    subst hp
    rw [updateState, if_neg hne, hsong]
    simp [h401]
  · intro hp hpos hs
    simp only at hp hs
    subst hp; subst hs
    rw [updateState, if_neg hne, hsong]
    simp [hpos, h401]

/-- Claim C3 witness: concrete 500-status failures of the "YMCA" play and
seek requests. -/
theorem c3_amended_witness :
    ("" : String) ≠ "YMCA" ∧ songLookup "YMCA" = some ymcaSong ∧ (500 : Int) ≠ 401 ∧
    updateState { playResult := CallResult.err 500, seekResult := CallResult.ok }
        "device1" "" "YMCA" =
      ("YMCA", [Effect.logUpdate "YMCA",
                Effect.play "device1" ["spotify:track:7Cp69rNBwU0gaFT8zxExlE"]]) ∧
    updateState { playResult := CallResult.ok, seekResult := CallResult.err 500 }
        "device1" "" "YMCA" =
      ("YMCA", [Effect.logUpdate "YMCA",
                Effect.play "device1" ["spotify:track:7Cp69rNBwU0gaFT8zxExlE"],
                Effect.seek 58000 none]) :=
  ⟨by decide, rfl, by decide,
   (c3_amended { playResult := CallResult.err 500, seekResult := CallResult.ok }
      "device1" "" "YMCA" ymcaSong 500 (by decide) rfl (by decide)).1 rfl,
   (c3_amended { playResult := CallResult.ok, seekResult := CallResult.err 500 }
      "device1" "" "YMCA" ymcaSong 500 (by decide) rfl (by decide)).2 rfl (by decide) rfl⟩

/-- Claim C9: `updateState` always finishes by installing the new name as
the held state — for mapped and unmapped names alike, whatever the
external service did — and an unmapped name is debounced like any other:
a run of N ≥ 2 consecutive occurrences reports the catalog inconsistency
(`console.error`) exactly once, on the first occurrence. -/
theorem c9_always_installs (svc : ServiceBehavior) (device prev name : String) (n : ℕ) :
    (updateState svc device prev name).1 = name ∧
    (songLookup name = none → prev ≠ name →
      runStates svc device prev (List.replicate (n + 1) name) =
        (name, [Effect.logUpdate name, Effect.logSongNotFound name])) := by
  refine ⟨updateState_fst svc device prev name, ?_⟩
  intro hnone hne
  rw [List.replicate_succ]
  simp only [runStates, updateState_fst, runStates_replicate_self]
  rw [updateState, if_neg hne, hnone]
  simp

/-- Claim C9 witness: the unmapped name "Macarena" repeated twice from the
initial empty state. -/
theorem c9_witness :
    songLookup "Macarena" = none ∧ ("" : String) ≠ "Macarena" ∧
    (updateState okSvc "device1" "" "Macarena").1 = "Macarena" ∧
    runStates okSvc "device1" "" (List.replicate 2 "Macarena") =
      ("Macarena", [Effect.logUpdate "Macarena", Effect.logSongNotFound "Macarena"]) :=
  ⟨rfl, by decide, (c9_always_installs okSvc "device1" "" "Macarena" 1).1,
   (c9_always_installs okSvc "device1" "" "Macarena" 1).2 rfl (by decide)⟩

/-- Claim C4 (amended): every play request issued by `updateState` carries
the selected device identifier, and every follow-up seek request carries
no device identifier at all — `spotifyApi.seek(song.position)` passes the
position only. -/
theorem c4_amended (svc : ServiceBehavior) (device prev name : String) :
    (updateState svc device prev name).2.all (playCarries device) = true ∧
    (updateState svc device prev name).2.all seekCarriesNoDevice = true := by
  obtain ⟨pr, sr⟩ := svc
  rw [updateState]
  split_ifs with h
  · simp
  · cases hsong : songLookup name with
    | none => simp [playCarries, seekCarriesNoDevice]
    | some song =>
      rcases pr with _ | status
      · by_cases hp : song.position > 0
        · rcases sr with _ | s2
          · simp [hp, playCarries, seekCarriesNoDevice]
          · by_cases h4 : s2 = 401 <;>
              simp [hp, h4, playCarries, seekCarriesNoDevice]
        · simp [hp, playCarries, seekCarriesNoDevice]
      · by_cases h4 : status = 401 <;>
          simp [h4, playCarries, seekCarriesNoDevice]

/-- Claim C6: a pose whose overall score is below `minPoseConfidence`
classifies as "none" — the `score >= minPoseConfidence` gate fails before
any gesture condition is consulted — and the frame performs no state
update and no external call. -/
theorem c6_low_pose_score (svc : ServiceBehavior) (device : String)
    (minPose minPart score : ℚ) (kps : List Keypoint) (st : String)
    (h : score < minPose) :
    classifyPose minPose minPart score kps = some none ∧
    frameStep svc device minPose minPart st { score := score, keypoints := kps } =
      some (st, []) := by
  have hcls : classifyPose minPose minPart score kps = some none := by
    rw [classifyPose, if_neg (not_le.mpr h)]
  refine ⟨hcls, ?_⟩
  simp only [frameStep]
  rw [hcls]

/-- Claim C6 witness: the fully-confident YMCA pose with pose-level score
1/100, below a threshold of 1/10: per-part confidences are 9/10 yet the
classification is "none" and the frame is inert. -/
theorem c6_witness :
    (1 : ℚ)/100 < 1/10 ∧
    classifyPose (1/10) (1/2) (1/100) kpsYMCA = some none ∧
    frameStep okSvc "device1" (1/10) (1/2) ""
      { score := 1/100, keypoints := kpsYMCA } = some ("", []) :=
  ⟨by norm_num,
   (c6_low_pose_score okSvc "device1" (1/10) (1/2) (1/100) kpsYMCA "" (by norm_num)).1,
   (c6_low_pose_score okSvc "device1" (1/10) (1/2) (1/100) kpsYMCA "" (by norm_num)).2⟩

/-- Claim C1 (amended): the state tracker replaces its held gesture
whenever `updateState` is invoked with a differing name, but a frame whose
classification is "none" never invokes it: with gesture `g` held, a
no-gesture frame leaves the held state `g` and emits nothing, and a
subsequent frame classified `g` again is not a transition — it also emits
nothing. -/
theorem c1_amended (svc : ServiceBehavior) (device : String) (mp mpc : ℚ)
    (g : String) (f1 f2 : Frame)
    (h1 : classifyPose mp mpc f1.score f1.keypoints = some none)
    (h2 : classifyPose mp mpc f2.score f2.keypoints = some (some g)) :
    frameStep svc device mp mpc g f1 = some (g, []) ∧
    frameStep svc device mp mpc g f2 = some (g, []) := by
  constructor
  · simp only [frameStep]
    rw [h1]
  · simp only [frameStep]
    rw [h2]
    show some (updateState svc device g g) = some (g, [])
    rw [updateState_self]

/-- Claim C1 (amended) witness: with "YMCA" held, the arms-down frame and
then a repeated YMCA frame are both inert. -/
theorem c1_amended_witness :
    frameStep okSvc "device1" (1/10) (1/2) "YMCA" frameIdle = some ("YMCA", []) ∧
    frameStep okSvc "device1" (1/10) (1/2) "YMCA" frameYMCA = some ("YMCA", []) :=
  c1_amended okSvc "device1" (1/10) (1/2) "YMCA" frameIdle frameYMCA
    classify_kpsIdle classify_kpsYMCA

/-- Claim C2 (amended): when every required part is present but the
confidence gate computes to `false` for both required-part lists (some
part at or below `minPartConfidence`), every definition is skipped
normally and classification returns "none" with no error; an absent
required part, by contrast, makes the lookup throw (see the
counterexample). -/
theorem c2_amended (mp mpc score : ℚ) (kps : List Keypoint)
    (harm : isAllConfidentParts kps mpc armParts = some false)
    (hthr : isAllConfidentParts kps mpc thrillerParts = some false) :
    classifyPose mp mpc score kps = some none := by
  rw [classifyPose]
  split_ifs with h
  · rw [harm, hthr]
    rfl
  · rfl

/-- All parts of the YMCA pose sit at confidence 9/10, which does not
clear a threshold of 9/10 (the comparison is strict), so the gate is
`false` with every part present. -/
theorem confArm_kpsYMCA_high : isAllConfidentParts kpsYMCA (9/10) armParts = some false := by
  with_unfolding_all decide

theorem confThriller_kpsYMCA_high :
    isAllConfidentParts kpsYMCA (9/10) thrillerParts = some false := by
  with_unfolding_all decide

/-- Claim C2 (amended) witness: the full YMCA pose against a part
threshold equal to its confidences is skipped everywhere and classifies
as "none" without error. -/
theorem c2_amended_witness :
    classifyPose (1/10) (9/10) (9/10) kpsYMCA = some none :=
  c2_amended (1/10) (9/10) (9/10) kpsYMCA confArm_kpsYMCA_high confThriller_kpsYMCA_high

theorem branchOf_eq_some_true {c v h : Option Bool} (hb : branchOf c v h = some true) :
    c = some true ∧ v = some true ∧ h = some true := by
  rcases c with _ | b
  · exact absurd hb (by simp [branchOf])
  · cases b
    · exact absurd hb (by simp [branchOf])
    · rcases v with _ | w
      · exact absurd hb (by simp [branchOf])
      · cases w
        · exact absurd hb (by simp [branchOf])
        · exact ⟨rfl, rfl, by simpa [branchOf] using hb⟩

theorem classifyPose_branches (mp mpc score : ℚ) (kps : List Keypoint) (g : String)
    (h : classifyPose mp mpc score kps = some (some g)) :
    (g = "YMCA" ∧ branchOf (isAllConfidentParts kps mpc armParts) (vertYMCA kps)
        (horizOpposite kps mpc) = some true) ∨
    (g = "Baby Shark" ∧ branchOf (isAllConfidentParts kps mpc armParts) (vertShark kps)
        (horizSameSide kps mpc) = some true) ∨
    (g = "Disco" ∧ branchOf (isAllConfidentParts kps mpc armParts) (vertShark kps)
        (horizOpposite kps mpc) = some true) ∨
    (g = "Thriller" ∧ branchOf (isAllConfidentParts kps mpc thrillerParts) (vertThriller kps)
        (horizSameSide kps mpc) = some true) := by
  rw [classifyPose] at h
  split_ifs at h with hs
  · split at h
    · exact Option.noConfusion h
    · rename_i hb
      exact Or.inl ⟨by simpa using h.symm, hb⟩
    · split at h
      · exact Option.noConfusion h
      · rename_i hb
        exact Or.inr (Or.inl ⟨by simpa using h.symm, hb⟩)
      · split at h
        · exact Option.noConfusion h
        · rename_i hb
          exact Or.inr (Or.inr (Or.inl ⟨by simpa using h.symm, hb⟩))
        · split at h
          · exact Option.noConfusion h
          · rename_i hb
            exact Or.inr (Or.inr (Or.inr ⟨by simpa using h.symm, hb⟩))
          · simp at h
  · simp at h

/-- A tied wrist/elbow y-coordinate defeats the YMCA vertical chain: every
comparison is strict. -/
theorem vertYMCA_ne_of_wristTie (kps : List Keypoint)
    (h : getY kps "leftWrist" = getY kps "leftElbow" ∨
         getY kps "rightWrist" = getY kps "rightElbow") :
    vertYMCA kps ≠ some true := by
  intro hc
  rw [vertYMCA] at hc
  simp only [Option.bind_eq_some, Option.some.injEq] at hc
  obtain ⟨lW, hlW, lE, hlE, lS, hlS, rW, hrW, rE, hrE, rS, hrS, hfin⟩ := hc
  rcases h with h | h
  · rw [hlW, hlE] at h
    injection h with h
    subst h
    simp at hfin
  · rw [hrW, hrE] at h
    injection h with h
    subst h
    simp at hfin

/-- A tied wrist/elbow y-coordinate defeats both disjuncts of the shared
Baby Shark / Disco vertical test. -/
theorem vertShark_ne_of_wristTie (kps : List Keypoint)
    (h : getY kps "leftWrist" = getY kps "leftElbow" ∨
         getY kps "rightWrist" = getY kps "rightElbow") :
    vertShark kps ≠ some true := by
  intro hc
  rw [vertShark] at hc
  simp only [Option.bind_eq_some, Option.some.injEq] at hc
  obtain ⟨lW, hlW, lE, hlE, lS, hlS, rW, hrW, rE, hrE, rS, hrS, hfin⟩ := hc
  rcases h with h | h
  · rw [hlW, hlE] at h
    injection h with h
    subst h
    simp at hfin
  · rw [hrW, hrE] at h
    injection h with h
    subst h
    simp at hfin

/-- A tied wrist/elbow y-coordinate defeats the Thriller vertical chain. -/
theorem vertThriller_ne_of_wristTie (kps : List Keypoint)
    (h : getY kps "leftWrist" = getY kps "leftElbow" ∨
         getY kps "rightWrist" = getY kps "rightElbow") :
    vertThriller kps ≠ some true := by
  intro hc
  rw [vertThriller] at hc
  simp only [Option.bind_eq_some, Option.some.injEq] at hc
  obtain ⟨lW, hlW, lE, hlE, rW, hrW, rE, hrE, hfin⟩ := hc
  rcases h with h | h
  · rw [hlW, hlE] at h
    injection h with h
    subst h
    simp at hfin
  · rw [hrW, hrE] at h
    injection h with h
    subst h
    simp at hfin

/-- A tied elbow/shoulder y-coordinate defeats the YMCA vertical chain. -/
theorem vertYMCA_ne_of_shoulderTie (kps : List Keypoint)
    (h : getY kps "leftElbow" = getY kps "leftShoulder" ∨
         getY kps "rightElbow" = getY kps "rightShoulder") :
    vertYMCA kps ≠ some true := by
  intro hc
  rw [vertYMCA] at hc
  simp only [Option.bind_eq_some, Option.some.injEq] at hc
  obtain ⟨lW, hlW, lE, hlE, lS, hlS, rW, hrW, rE, hrE, rS, hrS, hfin⟩ := hc
  rcases h with h | h
  · rw [hlE, hlS] at h
    injection h with h
    subst h
    simp at hfin
  · rw [hrE, hrS] at h
    injection h with h
    subst h
    simp at hfin

/-- A tied elbow/shoulder y-coordinate defeats both disjuncts of the
shared Baby Shark / Disco vertical test. -/
theorem vertShark_ne_of_shoulderTie (kps : List Keypoint)
    (h : getY kps "leftElbow" = getY kps "leftShoulder" ∨
         getY kps "rightElbow" = getY kps "rightShoulder") :
    vertShark kps ≠ some true := by
  intro hc
  rw [vertShark] at hc
  simp only [Option.bind_eq_some, Option.some.injEq] at hc
  obtain ⟨lW, hlW, lE, hlE, lS, hlS, rW, hrW, rE, hrE, rS, hrS, hfin⟩ := hc
  rcases h with h | h
  · rw [hlE, hlS] at h
    injection h with h
    subst h
    simp at hfin
  · rw [hrE, hrS] at h
    injection h with h
    subst h
    simp at hfin

/-- A wrist x-coordinate equal to the head-reference average defeats the
opposite-sides horizontal test: both strict comparisons against the
average are false. -/
theorem horizOpposite_ne_of_headTie (kps : List Keypoint) (mpc hv : ℚ)
    (hhx : headX kps mpc = some (JsNum.val hv))
    (h : getX kps "leftWrist" = some hv ∨ getX kps "rightWrist" = some hv) :
    horizOpposite kps mpc ≠ some true := by
  intro hc
  rw [horizOpposite, hhx] at hc
  simp only [Option.some_bind, Option.bind_eq_some, Option.some.injEq] at hc
  obtain ⟨lWx, hlWx, rWx, hrWx, hfin⟩ := hc
  rcases h with h | h
  · rw [hlWx] at h
    injection h with h
    subst h
    simp [jsLt, jsGt] at hfin
  · rw [hrWx] at h
    injection h with h
    subst h
    simp [jsLt, jsGt] at hfin

/-- A wrist x-coordinate equal to the head-reference average defeats the
same-side horizontal test as well. -/
theorem horizSameSide_ne_of_headTie (kps : List Keypoint) (mpc hv : ℚ)
    (hhx : headX kps mpc = some (JsNum.val hv))
    (h : getX kps "leftWrist" = some hv ∨ getX kps "rightWrist" = some hv) :
    horizSameSide kps mpc ≠ some true := by
  intro hc
  rw [horizSameSide, hhx] at hc
  simp only [Option.some_bind, Option.bind_eq_some, Option.some.injEq] at hc
  obtain ⟨lWx, hlWx, rWx, hrWx, hfin⟩ := hc
  rcases h with h | h
  · rw [hlWx] at h
    injection h with h
    subst h
    simp [jsLt, jsGt] at hfin
  · rw [hrWx] at h
    injection h with h
    subst h
    simp [jsLt, jsGt] at hfin

/-- Claim C10 (amended): every geometric comparison in the four gesture
conditions is strict, so a tied wrist/elbow y-coordinate defeats all four
conditions, and a wrist x-coordinate equal to the head-reference average
defeats all four; but a tied elbow/shoulder y-coordinate defeats only
YMCA, Baby Shark and Disco — the Thriller condition never compares an
elbow with a shoulder (see the counterexample, where such a pose still
triggers a state update). -/
theorem c10_amended (mp mpc score hv : ℚ) (kps : List Keypoint) :
    ((getY kps "leftWrist" = getY kps "leftElbow" ∨
      getY kps "rightWrist" = getY kps "rightElbow") →
      ∀ g, classifyPose mp mpc score kps ≠ some (some g)) ∧
    ((headX kps mpc = some (JsNum.val hv) ∧
      (getX kps "leftWrist" = some hv ∨ getX kps "rightWrist" = some hv)) →
      ∀ g, classifyPose mp mpc score kps ≠ some (some g)) ∧
    ((getY kps "leftElbow" = getY kps "leftShoulder" ∨
      getY kps "rightElbow" = getY kps "rightShoulder") →
      classifyPose mp mpc score kps ≠ some (some "YMCA") ∧
      classifyPose mp mpc score kps ≠ some (some "Baby Shark") ∧
      classifyPose mp mpc score kps ≠ some (some "Disco")) := by
  refine ⟨?_, ?_, ?_⟩
  · intro h g hc
    rcases classifyPose_branches mp mpc score kps g hc with
      ⟨_, hb⟩ | ⟨_, hb⟩ | ⟨_, hb⟩ | ⟨_, hb⟩
    · exact vertYMCA_ne_of_wristTie kps h (branchOf_eq_some_true hb).2.1
    · exact vertShark_ne_of_wristTie kps h (branchOf_eq_some_true hb).2.1
    · exact vertShark_ne_of_wristTie kps h (branchOf_eq_some_true hb).2.1
    · exact vertThriller_ne_of_wristTie kps h (branchOf_eq_some_true hb).2.1
  · rintro ⟨hhx, h⟩ g hc
    rcases classifyPose_branches mp mpc score kps g hc with
      ⟨_, hb⟩ | ⟨_, hb⟩ | ⟨_, hb⟩ | ⟨_, hb⟩
    · exact horizOpposite_ne_of_headTie kps mpc hv hhx h (branchOf_eq_some_true hb).2.2
    · exact horizSameSide_ne_of_headTie kps mpc hv hhx h (branchOf_eq_some_true hb).2.2
    · exact horizOpposite_ne_of_headTie kps mpc hv hhx h (branchOf_eq_some_true hb).2.2
    · exact horizSameSide_ne_of_headTie kps mpc hv hhx h (branchOf_eq_some_true hb).2.2
  · intro h
    refine ⟨?_, ?_, ?_⟩
    · intro hc
      rcases classifyPose_branches mp mpc score kps _ hc with
        ⟨hg, hb⟩ | ⟨hg, hb⟩ | ⟨hg, hb⟩ | ⟨hg, hb⟩
      · exact vertYMCA_ne_of_shoulderTie kps h (branchOf_eq_some_true hb).2.1
      · exact absurd hg (by simp)
      · exact absurd hg (by simp)
      · exact absurd hg (by simp)
    · intro hc
      rcases classifyPose_branches mp mpc score kps _ hc with
        ⟨hg, hb⟩ | ⟨hg, hb⟩ | ⟨hg, hb⟩ | ⟨hg, hb⟩
      · exact absurd hg (by simp)
      · exact vertShark_ne_of_shoulderTie kps h (branchOf_eq_some_true hb).2.1
      · exact absurd hg (by simp)
      · exact absurd hg (by simp)
    · intro hc
      rcases classifyPose_branches mp mpc score kps _ hc with
        ⟨hg, hb⟩ | ⟨hg, hb⟩ | ⟨hg, hb⟩ | ⟨hg, hb⟩
      · exact absurd hg (by simp)
      · exact absurd hg (by simp)
      · exact vertShark_ne_of_shoulderTie kps h (branchOf_eq_some_true hb).2.1
      · exact absurd hg (by simp)

/-- The `kpsTie` pose with the left wrist lowered to its elbow's height:
wrist y and elbow y are both 100. -/
def kpsWristTie : List Keypoint :=
  [mkKp "nose" 300 20 (9/10), mkKp "leftEye" 300 18 (9/10), mkKp "rightEye" 300 18 (9/10),
   mkKp "leftEar" 300 22 (9/10), mkKp "rightEar" 300 22 (9/10),
   mkKp "leftWrist" 100 100 (9/10), mkKp "leftElbow" 110 100 (9/10),
   mkKp "leftShoulder" 120 140 (9/10),
   mkKp "rightWrist" 150 50 (9/10), mkKp "rightElbow" 160 100 (9/10),
   mkKp "rightShoulder" 170 120 (9/10)]

/-- The `kpsYMCA` pose with the left wrist moved onto the head-reference
average x = 300. -/
def kpsXTie : List Keypoint :=
  [mkKp "nose" 300 20 (9/10), mkKp "leftEye" 300 18 (9/10), mkKp "rightEye" 300 18 (9/10),
   mkKp "leftEar" 300 22 (9/10), mkKp "rightEar" 300 22 (9/10),
   mkKp "leftWrist" 300 50 (9/10), mkKp "leftElbow" 220 100 (9/10),
   mkKp "leftShoulder" 240 150 (9/10),
   mkKp "rightWrist" 400 50 (9/10), mkKp "rightElbow" 380 100 (9/10),
   mkKp "rightShoulder" 360 150 (9/10)]

/-- Claim C10 (amended) witness: the three tie situations at concrete
poses. -/
theorem c10_amended_witness :
    classifyPose (1/10) (1/2) (9/10) kpsWristTie ≠ some (some "YMCA") ∧
    classifyPose (1/10) (1/2) (9/10) kpsXTie ≠ some (some "YMCA") ∧
    classifyPose (1/10) (1/2) (9/10) kpsTie ≠ some (some "Disco") :=
  ⟨(c10_amended (1/10) (1/2) (9/10) 0 kpsWristTie).1
      (Or.inl (by with_unfolding_all decide)) "YMCA",
   (c10_amended (1/10) (1/2) (9/10) 300 kpsXTie).2.1
      ⟨by with_unfolding_all decide, Or.inl (by with_unfolding_all decide)⟩ "YMCA",
   ((c10_amended (1/10) (1/2) (9/10) 0 kpsTie).2.2
      (Or.inl (by with_unfolding_all decide))).2.2⟩

/-- When the gate and the vertical test both return values and the
horizontal test computes to `false`, the whole condition is `false`. -/
theorem branchOf_some_some_of_false (b v : Bool) :
    branchOf (some b) (some v) (some false) = some false := by
  cases b <;> cases v <;> rfl

/-- Claim C5: in a snapshot where every head-region part sits at or below
`minPartConfidence` (and the consulted arm parts are present, so no lookup
throws), the head reference filters to the empty list, its average is the
JavaScript `0/0 = NaN`, every strict comparison against it is false, so
every gesture condition is false: classification yields "none" and the
frame performs no state update and no external call. -/
theorem c5_empty_head (svc : ServiceBehavior) (device : String)
    (mp mpc score : ℚ) (kps : List Keypoint) (st : String)
    (hhead : ∀ p ∈ headParts, ∃ kp, findKeypoint kps p = some kp ∧ kp.score ≤ mpc)
    (harm : ∀ p ∈ armParts, (findKeypoint kps p).isSome = true) :
    classifyPose mp mpc score kps = some none ∧
    frameStep svc device mp mpc st { score := score, keypoints := kps } = some (st, []) := by
  obtain ⟨k1, hk1, hle1⟩ := hhead "nose" (by simp [headParts])
  obtain ⟨k2, hk2, hle2⟩ := hhead "leftEye" (by simp [headParts])
  obtain ⟨k3, hk3, hle3⟩ := hhead "rightEye" (by simp [headParts])
  obtain ⟨k4, hk4, hle4⟩ := hhead "leftEar" (by simp [headParts])
  obtain ⟨k5, hk5, hle5⟩ := hhead "rightEar" (by simp [headParts])
  have hs1 : getScore kps "nose" = some k1.score := by rw [getScore, hk1]; rfl
  have hs2 : getScore kps "leftEye" = some k2.score := by rw [getScore, hk2]; rfl
  have hs3 : getScore kps "rightEye" = some k3.score := by rw [getScore, hk3]; rfl
  have hs4 : getScore kps "leftEar" = some k4.score := by rw [getScore, hk4]; rfl
  have hs5 : getScore kps "rightEar" = some k5.score := by rw [getScore, hk5]; rfl
  have hn1 : ¬ mpc < k1.score := not_lt.mpr hle1
  have hn2 : ¬ mpc < k2.score := not_lt.mpr hle2
  have hn3 : ¬ mpc < k3.score := not_lt.mpr hle3
  have hn4 : ¬ mpc < k4.score := not_lt.mpr hle4
  have hn5 : ¬ mpc < k5.score := not_lt.mpr hle5
  have hfilter : confidentHeadParts kps mpc headParts = some [] := by
    simp only [headParts, confidentHeadParts, hs1, hs2, hs3, hs4, hs5]
    simp [hn1, hn2, hn3, hn4, hn5]
  have hheadX : headX kps mpc = some JsNum.nan := by
    rw [headX, hfilter]
    rfl
  obtain ⟨a1, ha1⟩ := Option.isSome_iff_exists.mp (harm "leftWrist" (by simp [armParts]))
  obtain ⟨a2, ha2⟩ := Option.isSome_iff_exists.mp (harm "leftElbow" (by simp [armParts]))
  obtain ⟨a3, ha3⟩ := Option.isSome_iff_exists.mp (harm "leftShoulder" (by simp [armParts]))
  obtain ⟨a4, ha4⟩ := Option.isSome_iff_exists.mp (harm "rightWrist" (by simp [armParts]))
  obtain ⟨a5, ha5⟩ := Option.isSome_iff_exists.mp (harm "rightElbow" (by simp [armParts]))
  obtain ⟨a6, ha6⟩ := Option.isSome_iff_exists.mp (harm "rightShoulder" (by simp [armParts]))
  have gs1 : getScore kps "leftWrist" = some a1.score := by rw [getScore, ha1]; rfl
  have gs2 : getScore kps "leftElbow" = some a2.score := by rw [getScore, ha2]; rfl
  have gs3 : getScore kps "leftShoulder" = some a3.score := by rw [getScore, ha3]; rfl
  have gs4 : getScore kps "rightWrist" = some a4.score := by rw [getScore, ha4]; rfl
  have gs5 : getScore kps "rightElbow" = some a5.score := by rw [getScore, ha5]; rfl
  have gs6 : getScore kps "rightShoulder" = some a6.score := by rw [getScore, ha6]; rfl
  have gx1 : getX kps "leftWrist" = some a1.position.x := by rw [getX, ha1]; rfl
  have gx4 : getX kps "rightWrist" = some a4.position.x := by rw [getX, ha4]; rfl
  have gy1 : getY kps "leftWrist" = some a1.position.y := by rw [getY, ha1]; rfl
  have gy2 : getY kps "leftElbow" = some a2.position.y := by rw [getY, ha2]; rfl
  have gy3 : getY kps "leftShoulder" = some a3.position.y := by rw [getY, ha3]; rfl
  have gy4 : getY kps "rightWrist" = some a4.position.y := by rw [getY, ha4]; rfl
  have gy5 : getY kps "rightElbow" = some a5.position.y := by rw [getY, ha5]; rfl
  have gy6 : getY kps "rightShoulder" = some a6.position.y := by rw [getY, ha6]; rfl
  have hscoresA : scoresOf kps armParts =
      some [a1.score, a2.score, a3.score, a4.score, a5.score, a6.score] := by
    simp only [armParts, scoresOf, gs1, gs2, gs3, gs4, gs5, gs6]
  have hconfA : isAllConfidentParts kps mpc armParts =
      some ([a1.score, a2.score, a3.score, a4.score, a5.score, a6.score].all
        (fun confidence => decide (mpc < confidence))) := by
    rw [isAllConfidentParts, hscoresA]
    rfl
  have hscoresT : scoresOf kps thrillerParts =
      some [a1.score, a2.score, a4.score, a5.score] := by
    simp only [thrillerParts, scoresOf, gs1, gs2, gs4, gs5]
  have hconfT : isAllConfidentParts kps mpc thrillerParts =
      some ([a1.score, a2.score, a4.score, a5.score].all
        (fun confidence => decide (mpc < confidence))) := by
    rw [isAllConfidentParts, hscoresT]
    rfl
  have hvY : vertYMCA kps = some (decide (a1.position.y < a2.position.y) &&
      decide (a2.position.y < a3.position.y) && decide (a4.position.y < a5.position.y) &&
      decide (a5.position.y < a6.position.y)) := by
    simp only [vertYMCA, gy1, gy2, gy3, gy4, gy5, gy6, Option.some_bind]
  have hvS : vertShark kps = some ((decide (a1.position.y < a2.position.y) &&
      decide (a2.position.y < a3.position.y) && decide (a5.position.y < a4.position.y) &&
      decide (a6.position.y < a5.position.y)) ||
      (decide (a2.position.y < a1.position.y) && decide (a3.position.y < a2.position.y) &&
      decide (a4.position.y < a5.position.y) && decide (a5.position.y < a6.position.y))) := by
    simp only [vertShark, gy1, gy2, gy3, gy4, gy5, gy6, Option.some_bind]
  have hvT : vertThriller kps = some (decide (a1.position.y < a2.position.y) &&
      decide (a4.position.y < a5.position.y)) := by
    simp only [vertThriller, gy1, gy2, gy4, gy5, Option.some_bind]
  have hOpp : horizOpposite kps mpc = some false := by
    simp only [horizOpposite, hheadX, Option.some_bind, gx1, gx4, jsLt, jsGt]
    simp
  have hSame : horizSameSide kps mpc = some false := by
    simp only [horizSameSide, hheadX, Option.some_bind, gx1, gx4, jsLt, jsGt]
    simp
  have hbY : branchOf (isAllConfidentParts kps mpc armParts) (vertYMCA kps)
      (horizOpposite kps mpc) = some false := by
    rw [hconfA, hvY, hOpp]
    exact branchOf_some_some_of_false _ _
  have hbS : branchOf (isAllConfidentParts kps mpc armParts) (vertShark kps)
      (horizSameSide kps mpc) = some false := by
    rw [hconfA, hvS, hSame]
    exact branchOf_some_some_of_false _ _
  have hbD : branchOf (isAllConfidentParts kps mpc armParts) (vertShark kps)
      (horizOpposite kps mpc) = some false := by
    rw [hconfA, hvS, hOpp]
    exact branchOf_some_some_of_false _ _
  have hbT : branchOf (isAllConfidentParts kps mpc thrillerParts) (vertThriller kps)
      (horizSameSide kps mpc) = some false := by
    rw [hconfT, hvT, hSame]
    exact branchOf_some_some_of_false _ _
  have hcls : classifyPose mp mpc score kps = some none := by
    rw [classifyPose]
    split_ifs with hsc
    · rw [hbY, hbS, hbD, hbT]
    · rfl
  refine ⟨hcls, ?_⟩
  simp only [frameStep]
  rw [hcls]

/-- The YMCA pose geometry with every head part detected at confidence
1/10 (at or below the 1/2 threshold) and every arm part at 9/10. -/
def kpsLowHead : List Keypoint :=
  [mkKp "nose" 300 20 (1/10), mkKp "leftEye" 300 18 (1/10), mkKp "rightEye" 300 18 (1/10),
   mkKp "leftEar" 300 22 (1/10), mkKp "rightEar" 300 22 (1/10),
   mkKp "leftWrist" 200 50 (9/10), mkKp "leftElbow" 220 100 (9/10),
   mkKp "leftShoulder" 240 150 (9/10),
   mkKp "rightWrist" 400 50 (9/10), mkKp "rightElbow" 380 100 (9/10),
   mkKp "rightShoulder" 360 150 (9/10)]

/-- Claim C5 witness: the low-confidence-head pose — geometrically a
perfect YMCA — classifies as "none" and leaves the frame inert. -/
theorem c5_witness :
    classifyPose (1/10) (1/2) (9/10) kpsLowHead = some none ∧
    frameStep okSvc "device1" (1/10) (1/2) ""
      { score := 9/10, keypoints := kpsLowHead } = some ("", []) :=
  c5_empty_head okSvc "device1" (1/10) (1/2) (9/10) kpsLowHead ""
    (by
      intro p hp
      fin_cases hp
      · exact ⟨mkKp "nose" 300 20 (1/10), by with_unfolding_all decide, by norm_num [mkKp]⟩
      · exact ⟨mkKp "leftEye" 300 18 (1/10), by with_unfolding_all decide, by norm_num [mkKp]⟩
      · exact ⟨mkKp "rightEye" 300 18 (1/10), by with_unfolding_all decide, by norm_num [mkKp]⟩
      · exact ⟨mkKp "leftEar" 300 22 (1/10), by with_unfolding_all decide, by norm_num [mkKp]⟩
      · exact ⟨mkKp "rightEar" 300 22 (1/10), by with_unfolding_all decide, by norm_num [mkKp]⟩)
    (by
      intro p hp
      fin_cases hp <;> with_unfolding_all decide)
